import Mathlib

/-!
Verification of the TypesOfYouTubeVideoTitles site: a shallow embedding of
its page logic (emphasis formatting, taxonomy rendering, expansion state,
video preview resolution) and of its host-routing middleware, with theorems
checking the specification's claims against the embedded code.

All definitions come first, followed by the supporting lemmas and the claim
theorems.
-/

namespace TitlesSite

/-! Section: Emphasis Formatter.

The function `formatEmphasis` (src/unnamed/part_000) splits a label on the
regex `/(\*[^*]+\*)/g` — keeping the captured delimiter groups and the gap
substrings, as JavaScript `String.prototype.split` does — and then maps each
part to an emphasized segment when it starts with `*`, ends with `*` and has
length at least 2 (taking `part.slice(1, -1)` as the content), and to a plain
segment otherwise.

The split is embedded as a left-to-right scan for the leftmost match of
`*<nonempty star-free run>*`; `fuel` bounds the recursion and is instantiated
with the input length, which suffices because every step consumes at least
one character. -/

inductive Segment where
  | plain (s : String)
  | emphasized (s : String)
deriving DecidableEq, Repr

/-- The JS split `text.split(/(\*[^*]+\*)/g)`: alternating gap substrings and
matched `*…*` groups, gaps at the boundaries included even when empty. -/
def emphParts : Nat → List Char → List Char → List (List Char)
  | 0, acc, rest => [acc.reverse ++ rest]
  | _ + 1, acc, [] => [acc.reverse]
  | fuel + 1, acc, c :: rest =>
    if c = '*' then
      if rest.takeWhile (fun d => d ≠ '*') = [] ∨
          rest.dropWhile (fun d => d ≠ '*') = [] then
        emphParts fuel (c :: acc) rest
      else
        acc.reverse ::
          ('*' :: (rest.takeWhile (fun d => d ≠ '*') ++ ['*'])) ::
          emphParts fuel [] (rest.dropWhile (fun d => d ≠ '*')).tail
    else
      emphParts fuel (c :: acc) rest

/-- Per-part classification: `part.startsWith("*") && part.endsWith("*") &&
part.length >= 2` yields `<em>{part.slice(1, -1)}</em>`, otherwise the part
is kept as plain text. -/
def partToSegment (part : List Char) : Segment :=
  if part.head? = some '*' ∧ part.getLast? = some '*' ∧ 2 ≤ part.length then
    Segment.emphasized (String.mk ((part.drop 1).dropLast))
  else
    Segment.plain (String.mk part)

/-- The function `formatEmphasis` from src/unnamed/part_000 lines 238-248. -/
def formatEmphasis (text : String) : List Segment :=
  (emphParts text.data.length [] text.data).map partToSegment

/-- Re-wrapping a segment: a plain segment is its verbatim text, an
emphasized segment is its content with a single `*` restored on each side. -/
def renderSegment : Segment → String
  | Segment.plain s => s
  | Segment.emphasized s => "*" ++ s ++ "*"

/-- Concatenation of re-wrapped segments, in order. -/
def renderSegments (segs : List Segment) : String :=
  String.join (segs.map renderSegment)

/-! Section: Taxonomy Store and Taxonomy View.

The page sources type the database as `Record<string, Topic>` with
`Topic = { type: string, subtypes?: Subtype[] }` and
`Subtype = { type: string, examples: string[] }`; `subtypes` and `examples`
can be absent in the backing JSON, modelled as `Option`. `Object.entries` of
the database is modelled as a list of key/topic pairs in declared order. -/

namespace Taxonomy

/-- A subtype record: display label (`type`) and its example URLs. -/
structure Subtype where
  type : String
  examples : Option (List String)
deriving DecidableEq, Repr

/-- A topic record: display label (`type`) and its subtypes. -/
structure Topic where
  type : String
  subtypes : Option (List Subtype)
deriving DecidableEq, Repr

/-- Body rendered inside an open subtype: the examples grid when
`sub.examples && sub.examples.length > 0`, the "No examples" empty-state
indicator otherwise. -/
inductive SubtypeBody where
  | noExamples
  | examplesGrid (urls : List String)
deriving DecidableEq, Repr

/-- Rendering of one subtype's body, per the guard above. -/
def renderSubtypeBody (sub : Subtype) : SubtypeBody :=
  match sub.examples with
  | some (u :: us) => SubtypeBody.examplesGrid (u :: us)
  | _ => SubtypeBody.noExamples

/-- Body rendered inside an open topic: `const subs = topic.subtypes ?? []`,
then the "No subtypes" empty-state indicator when `subs.length === 0`, the
subtype list otherwise. -/
inductive TopicBody where
  | noSubtypes
  | subtypeList (subs : List Subtype)
deriving DecidableEq, Repr

/-- Rendering of one topic's body, per the guard above. -/
def renderTopicBody (t : Topic) : TopicBody :=
  match t.subtypes.getD [] with
  | [] => TopicBody.noSubtypes
  | s :: ss => TopicBody.subtypeList (s :: ss)

/-- Rendering of one topic's body on the /topics route
(src/app/topics/page.tsx lines 80-83): there `topic.subtypes.length === 0`
is read with no `?? []` fallback, so a topic whose `subtypes` field is
absent evaluates `undefined.length` and throws a TypeError while rendering —
the thrown error is modelled as `none`. -/
def renderTopicBodyTopicsRoute (t : Topic) : Option TopicBody :=
  match t.subtypes with
  | none => none
  | some [] => some TopicBody.noSubtypes
  | some (s :: ss) => some (TopicBody.subtypeList (s :: ss))

/-- Numeric value `Number(key)` of the database's numeric-string keys. -/
def keyVal (s : String) : Nat := s.toNat?.getD 0

/-- The sort `Object.entries(topicsData).sort(([a], [b]) => Number(a) -
Number(b))`: a stable sort, ascending by numeric key. -/
def sortEntries (db : List (String × Topic)) : List (String × Topic) :=
  db.mergeSort (fun e₁ e₂ => keyVal e₁.1 ≤ keyVal e₂.1)

/-- The `topics` array in `TopicsPage`: the values of the sorted entries. -/
def topicsOf (db : List (String × Topic)) : List Topic :=
  (sortEntries db).map Prod.snd

end Taxonomy

/-! Section: Expansion state.

`TopicsPage` keeps `expandedTopics : Record<number, boolean>` and
`expandedSubtypes : Record<string, boolean>`; a key that was never set reads
as `false` (the page reads flags through `!!`), so the records are modelled
as total Boolean-valued maps. The subtype map is keyed by the template
string `` `${topicIdx}-${subtypeIdx}` ``. -/

/-- Little-endian decimal digits of `n`, exact when `fuel ≥ n`
(the empty list for `n = 0`). -/
def decDigitsRev : Nat → Nat → List Nat
  | 0, _ => []
  | fuel + 1, n => if n = 0 then [] else n % 10 :: decDigitsRev fuel (n / 10)

/-- Decimal rendering of a natural number, as JavaScript renders `${idx}`. -/
def natStr (n : Nat) : String :=
  if n = 0 then "0"
  else String.mk (((decDigitsRev n n).reverse).map Nat.digitChar)

/-- The subtype record key `` `${topicIdx}-${subtypeIdx}` ``. -/
def subKey (topicIdx subtypeIdx : Nat) : String :=
  natStr topicIdx ++ "-" ++ natStr subtypeIdx

/-- The `TopicsPage` expansion state (`useState` pair). -/
structure ExpansionState where
  expandedTopics : Nat → Bool
  expandedSubtypes : String → Bool

/-- Toggle of a topic:
`setExpandedTopics(prev => ({ ...prev, [idx]: !prev[idx] }))`. -/
def toggleTopic (st : ExpansionState) (idx : Nat) : ExpansionState :=
  { st with expandedTopics := fun j =>
      if j = idx then !st.expandedTopics idx else st.expandedTopics j }

/-- Toggle of a subtype: flips the `` `${topicIdx}-${subtypeIdx}` `` entry
of `expandedSubtypes`. -/
def toggleSubtype (st : ExpansionState) (topicIdx subtypeIdx : Nat) :
    ExpansionState :=
  { st with expandedSubtypes := fun k =>
      if k = subKey topicIdx subtypeIdx then
        !st.expandedSubtypes (subKey topicIdx subtypeIdx)
      else st.expandedSubtypes k }

/-- Little-endian base-10 value of a digit list. -/
def unDigits (l : List Nat) : Nat := l.foldr (fun d acc => d + 10 * acc) 0

/-! Section: Link Preview Resolver.

`VideoPreview` (src/unnamed/part_000) holds `title`, `thumb` and `failed`
state and fetches `https://noembed.com/embed?url=…`. A non-ok response is
turned into a rejection (`res.ok ? res.json() : Promise.reject()`); the
success handler sets `title` to `(json.title as string) || url` and `thumb`
to `(json.thumbnail_url as string) || null`; the `.catch` handler sets
`failed`. Both handlers return without touching state once the effect
cleanup has set its `cancelled` flag. A lookup's single outcome is modelled
by `FetchOutcome`; applying it to the component state is the total function
`applyOutcome`, so no outcome ever escapes as an error. -/

namespace Preview

/-- The `VideoPreview` visible state (`useState` triple). -/
structure State where
  title : Option String
  thumb : Option String
  failed : Bool
deriving DecidableEq, Repr

/-- Initial state: `useState(null)`, `useState(null)`, `useState(false)`. -/
def initState : State := ⟨none, none, false⟩

/-- Fields of the parsed JSON body that the component reads; a field can be
absent. -/
structure Body where
  title : Option String
  thumbnail_url : Option String
deriving DecidableEq, Repr

/-- The single outcome of one lookup: a transport failure (`fetch` rejects),
a non-success status (`res.ok` false, turned into a rejection), a body that
fails to parse (`res.json()` rejects), or a parsed body. -/
inductive FetchOutcome where
  | networkError
  | httpError
  | malformedBody
  | success (body : Body)
deriving DecidableEq, Repr

/-- Title fallback `(json.title as string) || url`: the URL is used when the
title is absent — or present but empty, since `""` is falsy. -/
def titleOrUrl (t : Option String) (url : String) : String :=
  match t with
  | some s => if s = "" then url else s
  | none => url

/-- Thumbnail fallback `(json.thumbnail_url as string) || null`: `""` is
falsy, so an empty thumbnail URL also becomes `null`. -/
def thumbOrNull (t : Option String) : Option String :=
  match t with
  | some s => if s = "" then none else some s
  | none => none

/-- Applying a lookup's outcome to the state: the success handler and the
`.catch` handler both return without touching state when `cancelled` is
set. -/
def applyOutcome (cancelled : Bool) (url : String) (o : FetchOutcome)
    (s : State) : State :=
  match o with
  | FetchOutcome.success body =>
    if cancelled then s
    else { s with title := some (titleOrUrl body.title url),
                  thumb := thumbOrNull body.thumbnail_url }
  | _ => if cancelled then s else { s with failed := true }

/-- What the component renders: the fallback plain link when `failed` is
set, the rich/loading card otherwise. -/
inductive Rendered where
  | plainLink (url : String)
  | card (title : Option String) (thumb : Option String) (url : String)
deriving DecidableEq, Repr

/-- Render decision of `VideoPreview`. -/
def render (s : State) (url : String) : Rendered :=
  if s.failed then Rendered.plainLink url else Rendered.card s.title s.thumb url

end Preview

/-! Section: Host Router (src/middleware.ts).

The middleware reads the `Host` header, strips any `:port` suffix
(`host.split(":")[0]`), and on the `titles.` subdomain rewrites every
pathname to `/titles` except the framework/static paths (`/_next…`,
`/favicon.ico`, `/public/…`) and `/titles` itself; other hosts pass
through. -/

namespace Router

/-- The routing decision: `NextResponse.next()` or `NextResponse.rewrite`
with the new pathname. -/
inductive RouteResult where
  | next
  | rewrite (pathname : String)
deriving DecidableEq, Repr

/-- JavaScript `s.startsWith(pre)`. -/
def jsStartsWith (s pre : String) : Bool := pre.data.isPrefixOf s.data

/-- Port stripping `host.split(":")[0]`: the characters before the first
`:`. -/
def stripPort (host : String) : String :=
  String.mk (host.data.takeWhile (fun c => c ≠ ':'))

/-- The function `middleware` from src/middleware.ts lines 4-27. -/
def middleware (host pathname : String) : RouteResult :=
  if jsStartsWith (stripPort host) "titles." then
    if jsStartsWith pathname "/_next" ∨ pathname = "/favicon.ico" ∨
        jsStartsWith pathname "/public/" then
      RouteResult.next
    else if pathname ≠ "/titles" then RouteResult.rewrite "/titles"
    else RouteResult.next
  else RouteResult.next

end Router

/-! Section: supporting lemmas. -/

/-- The split keeps every character: flattening the parts restores the
(accumulator followed by the) input. -/
theorem emphParts_flatten (fuel : Nat) : ∀ (acc cs : List Char),
    (emphParts fuel acc cs).flatten = acc.reverse ++ cs := by
  induction fuel with
  | zero => intro acc cs; simp [emphParts]
  | succ fuel ih =>
    intro acc cs
    cases cs with
    | nil => simp [emphParts]
    | cons c rest =>
      by_cases hc : c = '*'
      · subst hc
        by_cases hm : rest.takeWhile (fun d => d ≠ '*') = [] ∨
            rest.dropWhile (fun d => d ≠ '*') = []
        · rw [emphParts, if_pos rfl, if_pos hm, ih]
          simp
        · rw [emphParts, if_pos rfl, if_neg hm]
          have hne : rest.dropWhile (fun d => d ≠ '*') ≠ [] := fun h =>
            hm (Or.inr h)
          have hd : (rest.dropWhile (fun d => d ≠ '*')).head hne = '*' := by
            have := List.head_dropWhile_not (fun d => d ≠ '*') rest hne
            simpa using this
          have hcons : '*' :: (rest.dropWhile (fun d => d ≠ '*')).tail =
              rest.dropWhile (fun d => d ≠ '*') := by
            conv_rhs => rw [← List.head_cons_tail _ hne]
            rw [hd]
          have key : rest.takeWhile (fun d => d ≠ '*') ++
              '*' :: (rest.dropWhile (fun d => d ≠ '*')).tail = rest := by
            rw [hcons, List.takeWhile_append_dropWhile]
          simp only [List.flatten_cons, ih, List.reverse_nil, List.nil_append,
            List.cons_append, List.append_assoc, List.singleton_append]
          rw [key]
      · rw [emphParts, if_neg hc, ih]
        simp

/-- Re-wrapping a part's segment restores the part verbatim. -/
theorem renderSegment_partToSegment (part : List Char) :
    (renderSegment (partToSegment part)).data = part := by
  unfold partToSegment
  by_cases h : part.head? = some '*' ∧ part.getLast? = some '*' ∧
      2 ≤ part.length
  · rw [if_pos h]
    obtain ⟨h1, h2, h3⟩ := h
    obtain ⟨t, rfl⟩ : ∃ t, part = '*' :: t := by
      rcases List.head?_eq_some_iff.mp h1 with ⟨ys, hys⟩
      exact ⟨ys, hys⟩
    have ht : t ≠ [] := by
      intro h0
      subst h0
      simp at h3
    have h2' : t.getLast? = some '*' := by
      cases t with
      | nil => exact absurd rfl ht
      | cons b u => rwa [List.getLast?_cons_cons] at h2
    have hsplit : t.dropLast ++ ['*'] = t :=
      List.dropLast_append_getLast? '*' (by simpa using h2')
    show ("*" ++ String.mk ((('*' :: t).drop 1).dropLast) ++ "*").data =
      '*' :: t
    simp only [String.data_append]
    show '*' :: (t.dropLast ++ ['*']) = '*' :: t
    rw [hsplit]
  · rw [if_neg h]
    rfl

/-- Every input string splits without loss: mapping the parts through
segment classification and re-wrapping restores the input. -/
theorem renderSegments_formatEmphasis (s : String) :
    renderSegments (formatEmphasis s) = s := by
  apply String.ext
  simp only [renderSegments, formatEmphasis, String.data_join, List.map_map]
  rw [List.map_congr_left (g := id)
    (fun p _ => by simpa using renderSegment_partToSegment p)]
  rw [List.map_id, emphParts_flatten]
  simp

/-- Exactness of `decDigitsRev` with sufficient fuel. -/
theorem unDigits_decDigitsRev : ∀ (fuel n : Nat), n ≤ fuel →
    unDigits (decDigitsRev fuel n) = n := by
  intro fuel
  induction fuel with
  | zero => intro n h; interval_cases n; simp [decDigitsRev, unDigits]
  | succ fuel ih =>
    intro n h
    by_cases hn : n = 0
    · simp [decDigitsRev, hn, unDigits]
    · rw [decDigitsRev, if_neg hn]
      have hdiv : n / 10 ≤ fuel := by omega
      simp only [unDigits, List.foldr_cons]
      have := ih (n / 10) hdiv
      rw [unDigits] at this
      rw [this]
      omega

/-- Every entry of `decDigitsRev` is a decimal digit. -/
theorem decDigitsRev_lt_ten : ∀ (fuel n d : Nat),
    d ∈ decDigitsRev fuel n → d < 10 := by
  intro fuel
  induction fuel with
  | zero => intro n d hd; simp [decDigitsRev] at hd
  | succ fuel ih =>
    intro n d hd
    by_cases hn : n = 0
    · simp [decDigitsRev, hn] at hd
    · rw [decDigitsRev, if_neg hn] at hd
      rcases List.mem_cons.mp hd with h | h
      · omega
      · exact ih _ _ h

/-- Character codes of decimal digit characters. -/
theorem digitChar_toNat_eq : ∀ d < 10, (Nat.digitChar d).toNat = 48 + d := by
  decide

/-- Decimal digit characters are never the dash separator. -/
theorem digitChar_ne_dash : ∀ d < 10, Nat.digitChar d ≠ '-' := by
  decide

/-- Rendering digit lists to characters is injective on decimal digits. -/
theorem map_digitChar_inj {l₁ l₂ : List Nat} (h₁ : ∀ d ∈ l₁, d < 10)
    (h₂ : ∀ d ∈ l₂, d < 10)
    (h : l₁.map Nat.digitChar = l₂.map Nat.digitChar) : l₁ = l₂ := by
  have e : ∀ (l : List Nat), (∀ d ∈ l, d < 10) →
      (l.map Nat.digitChar).map (fun c => c.toNat - 48) = l := by
    intro l hl
    rw [List.map_map]
    rw [List.map_congr_left (g := id) (fun d hd => by
      simp only [Function.comp_apply, id_eq]
      rw [digitChar_toNat_eq d (hl d hd)]
      omega)]
    exact List.map_id l
  rw [← e l₁ h₁, ← e l₂ h₂, h]

/-- Decimal rendering is injective. -/
theorem natStr_injective : Function.Injective natStr := by
  intro m n h
  unfold natStr at h
  have dig_zero : ∀ k : Nat, k ≠ 0 →
      ¬("0" = String.mk (((decDigitsRev k k).reverse).map Nat.digitChar)) := by
    intro k hk he
    have hdata := congrArg String.data he
    have h0 : ("0" : String).data = List.map Nat.digitChar [0] := rfl
    rw [h0] at hdata
    have hlist := map_digitChar_inj (by intro d hd; simp at hd; omega)
      (fun d hd => decDigitsRev_lt_ten _ _ _ (List.mem_reverse.mp hd)) hdata
    have : decDigitsRev k k = [0] := by
      have := congrArg List.reverse hlist
      simpa using this.symm
    have hk0 := unDigits_decDigitsRev k k le_rfl
    rw [this] at hk0
    simp [unDigits] at hk0
    exact hk hk0.symm
  by_cases hm : m = 0 <;> by_cases hn : n = 0
  · omega
  · rw [if_pos hm, if_neg hn] at h
    exact absurd h (dig_zero n hn)
  · rw [if_neg hm, if_pos hn] at h
    exact absurd h.symm (dig_zero m hm)
  · rw [if_neg hm, if_neg hn] at h
    have hdata := congrArg String.data h
    have hlist := map_digitChar_inj
      (fun d hd => decDigitsRev_lt_ten _ _ _ (List.mem_reverse.mp hd))
      (fun d hd => decDigitsRev_lt_ten _ _ _ (List.mem_reverse.mp hd)) hdata
    have : decDigitsRev m m = decDigitsRev n n := by
      have := congrArg List.reverse hlist
      simpa using this
    have h1 := unDigits_decDigitsRev m m le_rfl
    have h2 := unDigits_decDigitsRev n n le_rfl
    rw [this, h2] at h1
    exact h1.symm

/-- Decimal renderings contain no dash. -/
theorem natStr_ne_dash (n : Nat) : ∀ c ∈ (natStr n).data, c ≠ '-' := by
  unfold natStr
  by_cases hn : n = 0
  · rw [if_pos hn]
    intro c hc
    have : c = '0' := by simpa using hc
    subst this
    decide
  · rw [if_neg hn]
    intro c hc
    have hc' : c ∈ ((decDigitsRev n n).reverse).map Nat.digitChar := hc
    rcases List.mem_map.mp hc' with ⟨d, hd, rfl⟩
    exact digitChar_ne_dash d (decDigitsRev_lt_ten _ _ _ (List.mem_reverse.mp hd))

/-- Splitting around a separator that the left part avoids. -/
theorem takeWhile_dropWhile_split (p : Char → Bool) :
    ∀ (A : List Char) (x : Char) (B : List Char), (∀ a ∈ A, p a = true) →
      p x = false →
      (A ++ x :: B).takeWhile p = A ∧ (A ++ x :: B).dropWhile p = x :: B := by
  intro A
  induction A with
  | nil =>
    intro x B _ hx
    simp [List.takeWhile_cons, List.dropWhile_cons, hx]
  | cons a A ih =>
    intro x B hA hx
    have ha : p a = true := hA a (List.mem_cons_self a A)
    have hrec := ih x B (fun b hb => hA b (List.mem_cons_of_mem _ hb)) hx
    simp only [List.cons_append, List.takeWhile_cons, List.dropWhile_cons, ha,
      if_true]
    constructor
    · rw [hrec.1]
    · rw [hrec.2]

/-- Template-string subtype keys are injective in the index pair. -/
theorem subKey_injective {t₁ i₁ t₂ i₂ : Nat}
    (h : subKey t₁ i₁ = subKey t₂ i₂) : t₁ = t₂ ∧ i₁ = i₂ := by
  have hdata := congrArg String.data h
  simp only [subKey, String.data_append] at hdata
  have split : ∀ k : Nat, ∀ L : List Char,
      ((natStr k).data ++ ['-'] ++ L).takeWhile (fun c => c ≠ '-') =
          (natStr k).data ∧
        ((natStr k).data ++ ['-'] ++ L).dropWhile (fun c => c ≠ '-') =
          '-' :: L := by
    intro k L
    have := takeWhile_dropWhile_split (fun c => c ≠ '-') (natStr k).data '-' L
      (fun a ha => by simpa using natStr_ne_dash k a ha) (by simp)
    simpa [List.append_assoc] using this
  have e₁ : (natStr t₁).data = (natStr t₂).data := by
    have := congrArg (List.takeWhile (fun c => c ≠ '-')) hdata
    rwa [(split t₁ (natStr i₁).data).1, (split t₂ (natStr i₂).data).1] at this
  have e₂ : (natStr i₁).data = (natStr i₂).data := by
    have := congrArg (List.dropWhile (fun c => c ≠ '-')) hdata
    rw [(split t₁ (natStr i₁).data).2, (split t₂ (natStr i₂).data).2] at this
    exact List.tail_eq_of_cons_eq this
  exact ⟨natStr_injective (String.ext e₁), natStr_injective (String.ext e₂)⟩

/-! Section: claim theorems. -/

/-- C1: the claim is false for `"**"`: a lone `*` does pass through as the
single plain segment `"*"`, but `"**"` satisfies the
`startsWith/endsWith/length ≥ 2` check and is turned into an emphasized
segment with empty content rather than passing through as plain text. -/
theorem C1_counterexample :
    formatEmphasis "**" = [Segment.emphasized ""] ∧
      formatEmphasis "**" ≠ [Segment.plain "**"] := by
  constructor
  · decide
  · decide

/-- C1 (amended): the input `"*"` (a single unmatched delimiter) yields the
single plain segment `"*"`, and the input `"**"` (an empty span) yields a
single emphasized segment with empty content — not a plain pass-through. -/
theorem C1_unmatched_and_empty_delimiters :
    formatEmphasis "*" = [Segment.plain "*"] ∧
      formatEmphasis "**" = [Segment.emphasized ""] := by
  constructor
  · decide
  · decide

/-- C2: the claim is false for the /topics page it cites: a Topic whose
`subtypes` field is absent makes src/app/topics/page.tsx read
`undefined.length` and throw a TypeError (modelled as `none`) instead of
rendering the "No subtypes" empty state — on that route, a missing
`subtypes` field is an error condition. -/
theorem C2_counterexample :
    Taxonomy.renderTopicBodyTopicsRoute ⟨"T", none⟩ = none ∧
      (none : Option Taxonomy.TopicBody) ≠
        some Taxonomy.TopicBody.noSubtypes := by
  constructor
  · rfl
  · decide

/-- C2 (amended): a Subtype whose `examples` field is absent or empty
renders the "No examples" indicator in every page variant, and a Topic with
an empty `subtypes` list renders the "No subtypes" indicator in every page
variant; a Topic whose `subtypes` field is absent renders "No subtypes"
only in the titles-page variant (src/unnamed/part_000, via
`topic.subtypes ?? []`), while the /topics page (src/app/topics/page.tsx),
which reads `.length` with no fallback, raises a TypeError on it instead
of rendering. -/
theorem C2_empty_state_and_missing_field (t : Taxonomy.Topic)
    (sub : Taxonomy.Subtype)
    (ht : t.subtypes = none ∨ t.subtypes = some [])
    (hs : sub.examples = none ∨ sub.examples = some []) :
    Taxonomy.renderTopicBody t = Taxonomy.TopicBody.noSubtypes ∧
      Taxonomy.renderSubtypeBody sub = Taxonomy.SubtypeBody.noExamples ∧
      (t.subtypes = some [] →
        Taxonomy.renderTopicBodyTopicsRoute t =
          some Taxonomy.TopicBody.noSubtypes) ∧
      (t.subtypes = none →
        Taxonomy.renderTopicBodyTopicsRoute t = none) := by
  refine ⟨?_, ?_, ?_, ?_⟩
  · rcases ht with h | h <;> simp [Taxonomy.renderTopicBody, h]
  · rcases hs with h | h <;> simp [Taxonomy.renderSubtypeBody, h]
  · intro h
    simp [Taxonomy.renderTopicBodyTopicsRoute, h]
  · intro h
    simp [Taxonomy.renderTopicBodyTopicsRoute, h]

/-- Witness for C2 (amended): a topic with `subtypes` absent and a subtype
with `examples: []` render the empty states in the titles-page variant; on
the /topics route, a topic with `subtypes: []` renders the empty state while
a topic with `subtypes` absent hits the error path. -/
theorem C2_empty_state_and_missing_field_witness :
    Taxonomy.renderTopicBody ⟨"T", none⟩ = Taxonomy.TopicBody.noSubtypes ∧
      Taxonomy.renderSubtypeBody ⟨"S", some []⟩ =
        Taxonomy.SubtypeBody.noExamples ∧
      Taxonomy.renderTopicBodyTopicsRoute ⟨"U", some []⟩ =
        some Taxonomy.TopicBody.noSubtypes ∧
      Taxonomy.renderTopicBodyTopicsRoute ⟨"T", none⟩ = none :=
  ⟨(C2_empty_state_and_missing_field ⟨"T", none⟩ ⟨"S", some []⟩
      (Or.inl rfl) (Or.inr rfl)).1,
    (C2_empty_state_and_missing_field ⟨"T", none⟩ ⟨"S", some []⟩
      (Or.inl rfl) (Or.inr rfl)).2.1,
    (C2_empty_state_and_missing_field ⟨"U", some []⟩ ⟨"S", some []⟩
      (Or.inr rfl) (Or.inr rfl)).2.2.1 rfl,
    (C2_empty_state_and_missing_field ⟨"T", none⟩ ⟨"S", some []⟩
      (Or.inl rfl) (Or.inr rfl)).2.2.2 rfl⟩

/-- C3: on a host whose port-stripped hostname starts with the configured
`titles.` subdomain, the root path `/` is rewritten to the fixed target page
`/titles`; on any other host every path passes through unmodified; and the
`/_next…` paths, `/favicon.ico`, and `/public/…` paths pass through
unrewritten regardless of subdomain. -/
theorem C3_host_router (host pathname : String) :
    (Router.jsStartsWith (Router.stripPort host) "titles." = true →
      pathname = "/" →
      Router.middleware host pathname = Router.RouteResult.rewrite "/titles") ∧
      (Router.jsStartsWith (Router.stripPort host) "titles." = false →
        Router.middleware host pathname = Router.RouteResult.next) ∧
      (Router.jsStartsWith pathname "/_next" = true ∨
          pathname = "/favicon.ico" ∨
          Router.jsStartsWith pathname "/public/" = true →
        Router.middleware host pathname = Router.RouteResult.next) := by
  refine ⟨?_, ?_, ?_⟩
  · intro hh hp
    subst hp
    simp [Router.middleware, hh]
    decide
  · intro hh
    simp [Router.middleware, hh]
  · intro h3
    by_cases hh : Router.jsStartsWith (Router.stripPort host) "titles." = true
    · rcases h3 with h | h | h <;> simp [Router.middleware, hh, h]
    · simp only [Bool.not_eq_true] at hh
      simp [Router.middleware, hh]

/-- Witness for C3: `titles.example.com` with path `/` rewrites to
`/titles`; `example.com` with path `/somewhere` passes through; and
`titles.example.com` with path `/_next/static/x.js` passes through. -/
theorem C3_host_router_witness :
    Router.middleware "titles.example.com" "/" =
        Router.RouteResult.rewrite "/titles" ∧
      Router.middleware "example.com" "/somewhere" =
        Router.RouteResult.next ∧
      Router.middleware "titles.example.com" "/_next/static/x.js" =
        Router.RouteResult.next :=
  ⟨(C3_host_router "titles.example.com" "/").1 (by decide) rfl,
    (C3_host_router "example.com" "/somewhere").2.1 (by decide),
    (C3_host_router "titles.example.com" "/_next/static/x.js").2.2
      (Or.inl (by decide))⟩

/-- C4: the displayed topic sequence is the document's entries rearranged
(a permutation) into ascending numeric order of their keys, and it is a pure
function of the document — the sort is derived once (`useMemo` with empty
dependencies) and deterministic, so it never changes during a session. -/
theorem C4_displayed_order_sorted (db : List (String × Taxonomy.Topic)) :
    List.Perm (Taxonomy.sortEntries db) db ∧
      ((Taxonomy.sortEntries db).map
        (fun e => Taxonomy.keyVal e.1)).Sorted (· ≤ ·) ∧
      Taxonomy.topicsOf db = (Taxonomy.sortEntries db).map Prod.snd := by
  refine ⟨List.mergeSort_perm db _, ?_, rfl⟩
  have h := @List.sorted_mergeSort (String × Taxonomy.Topic)
      (fun e₁ e₂ =>
        decide (Taxonomy.keyVal e₁.1 ≤ Taxonomy.keyVal e₂.1))
      (fun a b c hab hbc => by
        simp only [decide_eq_true_eq] at hab hbc ⊢
        omega)
      (fun a b => by
        simp only [Bool.or_eq_true, decide_eq_true_eq]
        omega)
      db
  rw [List.Sorted, List.pairwise_map]
  exact h.imp (fun hab => by simpa using hab)

/-- C5: the topic toggle flips exactly the given topic index's flag, leaving
every other topic flag and the whole subtype map unchanged; the subtype
toggle flips exactly the given `(topicIdx, subtypeIdx)` composite key's
flag, leaving every other pair's flag and the whole topic map unchanged. -/
theorem C5_toggle_frame (st : ExpansionState) (idx topicIdx subtypeIdx : Nat) :
    ((toggleTopic st idx).expandedTopics idx = !st.expandedTopics idx) ∧
      (∀ j, j ≠ idx →
        (toggleTopic st idx).expandedTopics j = st.expandedTopics j) ∧
      ((toggleTopic st idx).expandedSubtypes = st.expandedSubtypes) ∧
      ((toggleSubtype st topicIdx subtypeIdx).expandedSubtypes
          (subKey topicIdx subtypeIdx) =
        !st.expandedSubtypes (subKey topicIdx subtypeIdx)) ∧
      (∀ t i, (t, i) ≠ (topicIdx, subtypeIdx) →
        (toggleSubtype st topicIdx subtypeIdx).expandedSubtypes (subKey t i) =
          st.expandedSubtypes (subKey t i)) ∧
      ((toggleSubtype st topicIdx subtypeIdx).expandedTopics =
        st.expandedTopics) := by
  refine ⟨by simp [toggleTopic], ?_, rfl, by simp [toggleSubtype], ?_, rfl⟩
  · intro j hj
    simp [toggleTopic, hj]
  · intro t i hne
    have hk : subKey t i ≠ subKey topicIdx subtypeIdx := by
      intro he
      obtain ⟨h1, h2⟩ := subKey_injective he
      exact hne (by rw [h1, h2])
    simp [toggleSubtype, hk]

/-- Witness for C5: from the all-collapsed state, toggling subtype `(0, 1)`
leaves `(0, 0)` and `(1, 1)` unchanged, and toggling topic `0` leaves
topic `5` unchanged. -/
theorem C5_toggle_frame_witness :
    ((toggleSubtype ⟨fun _ => false, fun _ => false⟩ 0 1).expandedSubtypes
        (subKey 0 0) =
      ExpansionState.expandedSubtypes ⟨fun _ => false, fun _ => false⟩
        (subKey 0 0)) ∧
      ((toggleSubtype ⟨fun _ => false, fun _ => false⟩ 0 1).expandedSubtypes
          (subKey 1 1) =
        ExpansionState.expandedSubtypes ⟨fun _ => false, fun _ => false⟩
          (subKey 1 1)) ∧
      ((toggleTopic ⟨fun _ => false, fun _ => false⟩ 0).expandedTopics 5 =
        ExpansionState.expandedTopics ⟨fun _ => false, fun _ => false⟩ 5) :=
  ⟨(C5_toggle_frame ⟨fun _ => false, fun _ => false⟩ 0 0 1).2.2.2.2.1 0 0
      (by decide),
    (C5_toggle_frame ⟨fun _ => false, fun _ => false⟩ 0 0 1).2.2.2.2.1 1 1
      (by decide),
    (C5_toggle_frame ⟨fun _ => false, fun _ => false⟩ 0 0 1).2.1 5 (by decide)⟩

/-- C6: every failing lookup (network error, non-success status, malformed
body) for a still-interested consumer only sets the `failed` flag — the
outcome is absorbed by the total handler `applyOutcome`, never escaping as
an error — and the resulting rendered state is the fallback plain link. -/
theorem C6_failure_renders_plain_link (url : String) (o : Preview.FetchOutcome)
    (s : Preview.State)
    (ho : o = Preview.FetchOutcome.networkError ∨
      o = Preview.FetchOutcome.httpError ∨
      o = Preview.FetchOutcome.malformedBody) :
    Preview.applyOutcome false url o s = { s with failed := true } ∧
      Preview.render (Preview.applyOutcome false url o s) url =
        Preview.Rendered.plainLink url := by
  have h : Preview.applyOutcome false url o s = { s with failed := true } := by
    rcases ho with h | h | h <;> subst h <;> rfl
  refine ⟨h, ?_⟩
  rw [h]
  rfl

/-- Witness for C6 at a concrete URL and a network-error outcome. -/
theorem C6_failure_renders_plain_link_witness :
    Preview.applyOutcome false "https://youtu.be/x"
        Preview.FetchOutcome.networkError Preview.initState =
      { Preview.initState with failed := true } ∧
      Preview.render
          (Preview.applyOutcome false "https://youtu.be/x"
            Preview.FetchOutcome.networkError Preview.initState)
          "https://youtu.be/x" =
        Preview.Rendered.plainLink "https://youtu.be/x" :=
  C6_failure_renders_plain_link "https://youtu.be/x"
    Preview.FetchOutcome.networkError Preview.initState (Or.inl rfl)

/-- C7: once the effect cleanup has set `cancelled`, applying any outcome —
success or failure — leaves the visible state exactly unchanged: no title,
thumbnail, or failed flag is set after cancellation. -/
theorem C7_cancelled_outcome_discarded (url : String)
    (o : Preview.FetchOutcome) (s : Preview.State) :
    Preview.applyOutcome true url o s = s := by
  cases o <;> rfl

/-- C8: the claim is false for `"*word*"`: the JS split keeps the empty gap
substrings around the match, so the output has three segments (an empty
plain segment on each side of the emphasized one), not exactly one
emphasized segment. -/
theorem C8_counterexample :
    formatEmphasis "*word*" ≠ [Segment.emphasized "word"] := by
  decide

/-- C8 (amended): `"plain"` yields exactly one plain segment `"plain"`;
`"*word*"` yields the emphasized segment `"word"` surrounded by two empty
plain segments (the split's boundary gaps); `"a *b* c"` yields exactly
plain `"a "`, emphasized `"b"`, plain `" c"`. -/
theorem C8_segmentation_examples :
    formatEmphasis "plain" = [Segment.plain "plain"] ∧
      formatEmphasis "*word*" =
        [Segment.plain "", Segment.emphasized "word", Segment.plain ""] ∧
      formatEmphasis "a *b* c" =
        [Segment.plain "a ", Segment.emphasized "b", Segment.plain " c"] := by
  refine ⟨by decide, by decide, by decide⟩

/-- C9: the claim is false for a well-formed body whose `title` field is
present but empty: `(json.title as string) || url` treats `""` as falsy, so
the component resolves to the original URL, not to the extracted (empty)
title field. -/
theorem C9_counterexample :
    (Preview.applyOutcome false "https://youtu.be/x"
          (Preview.FetchOutcome.success ⟨some "", none⟩)
          Preview.initState).title =
        some "https://youtu.be/x" ∧
      some "https://youtu.be/x" ≠ some ("" : String) := by
  constructor
  · rfl
  · decide

/-- C9 (amended): on a successful lookup the state resolves with the body's
`title` when it is present and non-empty, falling back to the original URL
string when the title is absent or empty (falsy); the thumbnail is taken
from `thumbnail_url` when present and non-empty and is `null` otherwise;
the `failed` flag is untouched. -/
theorem C9_success_resolved (url : String) (body : Preview.Body) :
    ((Preview.applyOutcome false url (Preview.FetchOutcome.success body)
        Preview.initState).failed = false) ∧
      (∀ t, body.title = some t → t ≠ "" →
        (Preview.applyOutcome false url (Preview.FetchOutcome.success body)
            Preview.initState).title = some t) ∧
      (body.title = none ∨ body.title = some "" →
        (Preview.applyOutcome false url (Preview.FetchOutcome.success body)
            Preview.initState).title = some url) ∧
      (∀ u, body.thumbnail_url = some u → u ≠ "" →
        (Preview.applyOutcome false url (Preview.FetchOutcome.success body)
            Preview.initState).thumb = some u) ∧
      (body.thumbnail_url = none ∨ body.thumbnail_url = some "" →
        (Preview.applyOutcome false url (Preview.FetchOutcome.success body)
            Preview.initState).thumb = none) := by
  refine ⟨rfl, ?_, ?_, ?_, ?_⟩
  · intro t ht hne
    simp [Preview.applyOutcome, Preview.titleOrUrl, ht, hne]
  · intro h
    rcases h with h | h <;> simp [Preview.applyOutcome, Preview.titleOrUrl, h]
  · intro u hu hne
    simp [Preview.applyOutcome, Preview.thumbOrNull, hu, hne]
  · intro h
    rcases h with h | h <;> simp [Preview.applyOutcome, Preview.thumbOrNull, h]

/-- Witness for C9 (amended) at a body carrying a non-empty title and an
absent thumbnail. -/
theorem C9_success_resolved_witness :
    ((Preview.applyOutcome false "https://youtu.be/x"
        (Preview.FetchOutcome.success ⟨some "A Title", none⟩)
        Preview.initState).title = some "A Title") ∧
      ((Preview.applyOutcome false "https://youtu.be/x"
          (Preview.FetchOutcome.success ⟨some "A Title", none⟩)
          Preview.initState).thumb = none) :=
  ⟨(C9_success_resolved "https://youtu.be/x" ⟨some "A Title", none⟩).2.1
      "A Title" rfl (by decide),
    (C9_success_resolved "https://youtu.be/x" ⟨some "A Title", none⟩).2.2.2.2
      (Or.inl rfl)⟩

/-- C10: for every input string, concatenating the formatter's output
segments in order — each emphasized segment re-wrapped in a single `*` on
each side and each plain segment taken verbatim — reproduces the input
string exactly. -/
theorem C10_roundtrip (s : String) :
    renderSegments (formatEmphasis s) = s :=
  renderSegments_formatEmphasis s

end TitlesSite
